import Mathlib

/-!
Verification of the tank level-control simulation in `src/DCS.py`.

The non-presentational logic of the repository is the `TankState` dataclass
(fields, derived `min_level` / `max_level` bounds, `apply_disturbance`, `step`)
and the app-level operations `reset_tanks`, `simulate_disturbance` and
`trigger_spill_sample`, which only compose the dataclass operations.  Python
integers are unbounded, so every numeric field is embedded as `Int`.  The
pseudo-random draws made by `step` (`rng.randint(-3, 3)` and
`rng.randint(5, 10)`) are passed in as explicit parameters `noise` and `corr`,
which makes the embedding a pure function of the state and the RNG outputs.
-/

/-- State of a single tank, embedded from the `TankState` dataclass
(`src/DCS.py`, lines 131-139) with its field defaults. -/
structure TankState where
  tank_id : Int
  level : Int := 50
  target_level : Int := 50
  tolerance : Int := 10
  pending_disturbance : Int := 0
  deriving Repr, DecidableEq

/-- `TankState(tank_id=...)` with all other fields left at their dataclass
defaults, as constructed in `DCSApp.__init__` (line 185). -/
def mkTank (tank_id : Int) : TankState :=
  { tank_id := tank_id }

/-- Derived lower bound, from the `min_level` property (lines 141-143):
`max(0, self.target_level - self.tolerance)`. -/
def min_level (s : TankState) : Int :=
  max 0 (s.target_level - s.tolerance)

/-- Derived upper bound, from the `max_level` property (lines 145-147):
`min(100, self.target_level + self.tolerance)`. -/
def max_level (s : TankState) : Int :=
  min 100 (s.target_level + s.tolerance)

/-- `apply_disturbance` (lines 149-150): `self.pending_disturbance += amount`. -/
def apply_disturbance (s : TankState) (amount : Int) : TankState :=
  { s with pending_disturbance := s.pending_disturbance + amount }

/-- One simulation step, from `TankState.step` (lines 152-163).  `noise` is the
value drawn by `rng.randint(-3, 3)` and `corr` the value drawn by
`rng.randint(5, 10)` in whichever corrective branch runs (at most one branch
runs, so at most one such draw is consumed). -/
def step (s : TankState) (noise corr : Int) : TankState :=
  let level1 := s.level + noise + s.pending_disturbance
  let level2 :=
    if level1 < min_level s then level1 + corr
    else if level1 > max_level s then level1 - corr
    else level1
  { s with level := max 0 (min 100 level2), pending_disturbance := 0 }

/-- The tank list built at startup in `DCSApp.__init__` (line 185):
`[TankState(tank_id=index + 1) for index in range(tank_count)]`. -/
def init_tanks (tank_count : Nat) : List TankState :=
  (List.range tank_count).map (fun index => mkTank ((index : Int) + 1))

/-- Per-tank body of `DCSApp.reset_tanks` (lines 399-403): level and target
back to 50, pending disturbance cleared; `tank_id` and `tolerance` untouched. -/
def reset_tank (s : TankState) : TankState :=
  { s with level := 50, target_level := 50, pending_disturbance := 0 }

/-- `DCSApp.reset_tanks` (lines 399-412) applies `reset_tank` to every tank
in the list (the slider and status-bar updates are presentation only). -/
def reset_tanks (tanks : List TankState) : List TankState :=
  tanks.map reset_tank

/-- `DCSApp.simulate_disturbance` (lines 362-371): apply the drawn disturbance
(`rng.randint(-20, 20)`, passed here as `disturbance`) to the pending
disturbance, then run one step. -/
def simulate_disturbance (s : TankState) (disturbance noise corr : Int) : TankState :=
  step (apply_disturbance s disturbance) noise corr

/-- `DCSApp.trigger_spill_sample` (lines 373-382): apply the drawn overflow
push (`rng.randint(24, 34)`, passed here as `overflow_push`) to the pending
disturbance, then run one step. -/
def trigger_spill_sample (s : TankState) (overflow_push noise corr : Int) : TankState :=
  step (apply_disturbance s overflow_push) noise corr

/-- An operation on a single tank: either a simulation step (with its RNG
draws) or a disturbance injection of some amount.  Interleavings of the two
tank-state mutators are traces in `List Op`. -/
inductive Op where
  | opStep (noise corr : Int)
  | opDisturb (amount : Int)
  deriving Repr, DecidableEq

/-- Apply one operation to a tank state. -/
def applyOp (s : TankState) : Op → TankState
  | Op.opStep noise corr => step s noise corr
  | Op.opDisturb amount => apply_disturbance s amount

/-- Run a trace of operations on a tank state, left to right. -/
def run (s : TankState) : List Op → TankState
  | [] => s
  | op :: ops => run (applyOp s op) ops

/-- Modelled from the spec: section 4.1's description of one simulation step,
written from the spec's words (add noise plus the pending disturbance to the
level, zero the disturbance, corrective nudge if outside the derived bounds,
clamp to [0,100]) for comparison with `step`, which is embedded from the
source. -/
def step_spec (s : TankState) (noise corr : Int) : TankState :=
  let afterNoise : TankState :=
    { s with level := s.level + noise + s.pending_disturbance, pending_disturbance := 0 }
  let corrected : TankState :=
    if afterNoise.level < min_level afterNoise then
      { afterNoise with level := afterNoise.level + corr }
    else if afterNoise.level > max_level afterNoise then
      { afterNoise with level := afterNoise.level - corr }
    else afterNoise
  { corrected with level := max 0 (min 100 corrected.level) }

/-- Running a concatenated trace runs the two pieces in sequence. -/
theorem run_append (s : TankState) (l1 l2 : List Op) :
    run s (l1 ++ l2) = run (run s l1) l2 := by
  induction l1 generalizing s with
  | nil => rfl
  | cons op ops ih => simp [run, ih]

/-- The level produced by a single step is clamped to [0,100]. -/
theorem step_level_mem_Icc (s : TankState) (noise corr : Int) :
    0 ≤ (step s noise corr).level ∧ (step s noise corr).level ≤ 100 := by
  simp only [step]
  constructor <;> omega

/-- Claim C1: for every tank and every interleaving of simulation steps and
disturbance injections of any magnitude, after each call to `step` the tank's
level lies within [0,100].  Any point "just after a step" in an interleaving
is a trace of the shape `ops ++ [opStep noise corr]`. -/
theorem c1_level_bounded_after_any_step (s : TankState) (ops : List Op) (noise corr : Int) :
    0 ≤ (run s (ops ++ [Op.opStep noise corr])).level ∧
      (run s (ops ++ [Op.opStep noise corr])).level ≤ 100 := by
  rw [run_append]
  exact step_level_mem_Icc (run s ops) noise corr

/-- Claim C2: for every target_level and tolerance pair, the derived bounds
satisfy `min_level = max(0, target_level - tolerance)` and
`max_level = min(100, target_level + tolerance)`. -/
theorem c2_derived_bounds_formula (s : TankState) :
    min_level s = max 0 (s.target_level - s.tolerance) ∧
      max_level s = min 100 (s.target_level + s.tolerance) :=
  ⟨rfl, rfl⟩

/-- Claim C3: one simulation step performs exactly the sequence the spec
describes — add the noise (drawn in [-3,3]) plus the pending disturbance to
the level, zero the pending disturbance, nudge by the corrective draw (in
[5,10]) when outside the derived bounds, then clamp to [0,100]; `step_spec`
is that sequence written from the spec's words. -/
theorem c3_step_matches_spec (s : TankState) (noise corr : Int)
    (hn1 : -3 ≤ noise) (hn2 : noise ≤ 3) (hc1 : 5 ≤ corr) (hc2 : corr ≤ 10) :
    step s noise corr = step_spec s noise corr := by
  simp only [step, step_spec, min_level, max_level]
  split_ifs <;> rfl

/-- Witness for C3 at a concrete tank state and concrete RNG draws. -/
theorem c3_step_matches_spec_witness :
    ((-3 : Int) ≤ 2 ∧ (2 : Int) ≤ 3 ∧ (5 : Int) ≤ 7 ∧ (7 : Int) ≤ 10) ∧
      step (mkTank 1) 2 7 = step_spec (mkTank 1) 2 7 :=
  ⟨by decide, c3_step_matches_spec (mkTank 1) 2 7 (by decide) (by decide) (by decide) (by decide)⟩

/-- Claim C4: resetting sets every tank's level to 50, target_level to 50 and
pending_disturbance to 0, regardless of its prior state. -/
theorem c4_reset_sets_defaults (tanks : List TankState) (t : TankState)
    (h : t ∈ reset_tanks tanks) :
    t.level = 50 ∧ t.target_level = 50 ∧ t.pending_disturbance = 0 := by
  simp only [reset_tanks, List.mem_map] at h
  obtain ⟨u, _, rfl⟩ := h
  exact ⟨rfl, rfl, rfl⟩

/-- Witness for C4 on a concrete one-tank list with non-default prior state. -/
theorem c4_reset_sets_defaults_witness :
    reset_tank (TankState.mk 1 7 80 10 44) ∈ reset_tanks [TankState.mk 1 7 80 10 44] ∧
      (reset_tank (TankState.mk 1 7 80 10 44)).level = 50 := by
  refine ⟨by decide, ?_⟩
  exact (c4_reset_sets_defaults [TankState.mk 1 7 80 10 44]
    (reset_tank (TankState.mk 1 7 80 10 44)) (by decide)).1

/-- Claim C5: the simulation step is deterministic given the RNG outputs —
equal input states and equal RNG draws yield identical resulting states. -/
theorem c5_step_deterministic (s1 s2 : TankState) (n1 n2 c1 c2 : Int)
    (hs : s1 = s2) (hn : n1 = n2) (hc : c1 = c2) :
    step s1 n1 c1 = step s2 n2 c2 := by
  rw [hs, hn, hc]

/-- Witness for C5 at a concrete state and draws. -/
theorem c5_step_deterministic_witness :
    step (mkTank 2) 1 6 = step (mkTank 2) 1 6 :=
  c5_step_deterministic (mkTank 2) (mkTank 2) 1 1 6 6 rfl rfl rfl

/-- Claim C6: both disturbance injections add the triggered offset (drawn in
[-20,20], or in the overflow range [24,34]) to the tank's pending disturbance
and then immediately run exactly one simulation step, with no guarding of the
level beyond the step's own clamping. -/
theorem c6_disturbance_injection_is_apply_then_step (s : TankState)
    (d p noise1 corr1 noise2 corr2 : Int)
    (hd1 : -20 ≤ d) (hd2 : d ≤ 20) (hp1 : 24 ≤ p) (hp2 : p ≤ 34) :
    simulate_disturbance s d noise1 corr1 = step (apply_disturbance s d) noise1 corr1 ∧
      trigger_spill_sample s p noise2 corr2 = step (apply_disturbance s p) noise2 corr2 :=
  ⟨rfl, rfl⟩

/-- Witness for C6 at concrete draws inside both configured ranges. -/
theorem c6_disturbance_injection_witness :
    ((-20 : Int) ≤ 15 ∧ (15 : Int) ≤ 20 ∧ (24 : Int) ≤ 30 ∧ (30 : Int) ≤ 34) ∧
      simulate_disturbance (mkTank 3) 15 0 5 = step (apply_disturbance (mkTank 3) 15) 0 5 :=
  ⟨by decide,
    (c6_disturbance_injection_is_apply_then_step (mkTank 3) 15 30 0 5 0 5
      (by decide) (by decide) (by decide) (by decide)).1⟩

/-- Counterexample to claim C7 as stated: for the tank state with
`target_level = 200` and `tolerance = 10`, the derived `min_level` is
`max 0 (200 - 10) = 190`, which is not within [0,100].  The code clamps
`min_level` only from below (at 0) and `max_level` only from above (at 100). -/
theorem c7_counterexample :
    ¬ (∀ s : TankState,
        0 ≤ min_level s ∧ min_level s ≤ 100 ∧ 0 ≤ max_level s ∧ max_level s ≤ 100) := by
  intro h
  have hc := (h (TankState.mk 1 50 200 10 0)).2.1
  simp only [min_level] at hc
  omega

/-- Claim C7 amended: `min_level` is always at least 0 and `max_level` at most
100; both bounds lie within [0,100] for every tank state whose target and
tolerance satisfy `target_level - tolerance ≤ 100` and
`0 ≤ target_level + tolerance` — true in particular of every state the app
can reach, where `tolerance` is always 10 and `target_level` is 50 or a
slider value in [20,80]. -/
theorem c7_bounds_clamped (s : TankState)
    (h1 : s.target_level - s.tolerance ≤ 100) (h2 : 0 ≤ s.target_level + s.tolerance) :
    0 ≤ min_level s ∧ min_level s ≤ 100 ∧ 0 ≤ max_level s ∧ max_level s ≤ 100 := by
  simp only [min_level, max_level]
  refine ⟨?_, ?_, ?_, ?_⟩ <;> omega

/-- Witness for the amended C7 at the default tank state. -/
theorem c7_bounds_clamped_witness :
    ((mkTank 1).target_level - (mkTank 1).tolerance ≤ 100 ∧
        0 ≤ (mkTank 1).target_level + (mkTank 1).tolerance) ∧
      0 ≤ min_level (mkTank 1) ∧ min_level (mkTank 1) ≤ 100 ∧
        0 ≤ max_level (mkTank 1) ∧ max_level (mkTank 1) ≤ 100 :=
  ⟨by decide, c7_bounds_clamped (mkTank 1) (by decide) (by decide)⟩

/-- Claim C8: every tank created at startup has level 50, target_level 50,
tolerance 10 and pending_disturbance 0 (the dataclass defaults). -/
theorem c8_startup_defaults (tank_count : Nat) (t : TankState)
    (h : t ∈ init_tanks tank_count) :
    t.level = 50 ∧ t.target_level = 50 ∧ t.tolerance = 10 ∧ t.pending_disturbance = 0 := by
  simp only [init_tanks, List.mem_map] at h
  obtain ⟨i, _, rfl⟩ := h
  exact ⟨rfl, rfl, rfl, rfl⟩

/-- Witness for C8: the first of the four tanks the app creates by default. -/
theorem c8_startup_defaults_witness :
    mkTank 1 ∈ init_tanks 4 ∧ (mkTank 1).level = 50 :=
  ⟨by decide, (c8_startup_defaults 4 (mkTank 1) (by decide)).1⟩

/-- Claim C9: the simulation step modifies only `level` and
`pending_disturbance` — `tank_id`, `target_level` and `tolerance` are
unchanged, and `pending_disturbance` is 0 after the step. -/
theorem c9_step_frame (s : TankState) (noise corr : Int) :
    (step s noise corr).tank_id = s.tank_id ∧
      (step s noise corr).target_level = s.target_level ∧
      (step s noise corr).tolerance = s.tolerance ∧
      (step s noise corr).pending_disturbance = 0 :=
  ⟨rfl, rfl, rfl, rfl⟩

/-- Claim C10: disturbance application is additive — applying `a` then `b`
equals applying `a + b` in one call; hence the two applications commute and
applying 0 is the identity. -/
theorem c10_apply_disturbance_additive (s : TankState) (a b : Int) :
    apply_disturbance (apply_disturbance s a) b = apply_disturbance s (a + b) ∧
      apply_disturbance (apply_disturbance s a) b = apply_disturbance (apply_disturbance s b) a ∧
      apply_disturbance s 0 = s := by
  cases s with
  | mk tank_id level target_level tolerance pending_disturbance =>
    refine ⟨?_, ?_, ?_⟩ <;> simp [apply_disturbance] <;> omega
